import Mathlib

/-!
Shallow embedding of the credential-protection core of the PasswordManager
repository (src/data_manager.py, src/password_manager.py,
src/utils/encryption.py, src/utils/password_validation.py,
src/utils/password_generation.py), together with theorems settling the
frozen claims about it.

Strings of the Python source are embedded as `List Char`; the SQLite
`passwords` and `users` tables are embedded as Lean lists of records, with
each SQL statement translated to the corresponding pure list operation.
The stateful methods become explicit state-passing functions, and code
paths that raise Python exceptions return `Except` values.  The two
external cryptographic libraries used by the source (`cryptography.fernet`
and `bcrypt`) are modelled by executable Lean functions that reproduce
their functional behaviour (round-trip, integrity check, hash verify,
error on malformed input); their doc comments say exactly what is
modelled.  Site names are treated at the ASCII level, where Python's
`str.lower` and SQLite's `LOWER` agree with `Char.toLower`.
-/

namespace PwVault

/-- Python-level exceptions that the embedded code paths can raise. -/
inductive PyError where
  | typeError
  | valueError
  deriving Repr, DecidableEq

/-- Modelled: the `cryptography.fernet.InvalidToken` exception raised by the
external Fernet library when an authenticated token fails verification. -/
inductive CryptoError where
  | invalidToken
  deriving Repr, DecidableEq

namespace Fernet

/-- Modelled: a token of the external `cryptography.fernet` library, the
authenticated blob produced by `Fernet.encrypt` — a nonce together with the
keyed ciphertext body and an authentication tag over key, nonce and body. -/
structure FernetToken where
  tag : Nat
  nonce : Nat
  body : List Nat
  deriving Repr, DecidableEq

/-- Modelled: the keyed authentication tag of the external Fernet library,
as a deterministic function of the key, the nonce and the ciphertext body. -/
def authTag (key nonce : Nat) (body : List Nat) : Nat :=
  key + 2 * nonce + 3 * body.sum

/-- Modelled: `Fernet(key).encrypt` of the external `cryptography.fernet`
library. The nonce argument stands for the fresh randomness the library
draws on each call; the body is a key-and-nonce-dependent reversible
transform of the plaintext code points. -/
def encrypt (key nonce : Nat) (plaintext : List Char) : FernetToken :=
  let body := plaintext.map fun c => c.toNat + key + nonce
  ⟨authTag key nonce body, nonce, body⟩

/-- Modelled: `Fernet(key).decrypt` of the external `cryptography.fernet`
library: verifies the authentication tag against the key and, on success,
inverts the body transform; on tag mismatch (tampering, corruption or a
wrong key) it raises `InvalidToken`. -/
def decrypt (key : Nat) (t : FernetToken) : Except CryptoError (List Char) :=
  if t.tag = authTag key t.nonce t.body then
    .ok (t.body.map fun n => Char.ofNat (n - key - t.nonce))
  else
    .error .invalidToken

end Fernet

namespace EncryptionManager

/-- Embeds `EncryptionManager.encrypt` (src/utils/encryption.py lines 46-57):
encodes the plaintext and delegates to the Fernet cipher suite. The nonce
argument stands for the randomness Fernet draws on this call. -/
def encrypt (key nonce : Nat) (plaintext : List Char) : Fernet.FernetToken :=
  Fernet.encrypt key nonce plaintext

/-- Embeds `EncryptionManager.decrypt` (src/utils/encryption.py lines 59-68):
delegates to the Fernet cipher suite and decodes the result. -/
def decrypt (key : Nat) (t : Fernet.FernetToken) : Except CryptoError (List Char) :=
  Fernet.decrypt key t

end EncryptionManager

namespace PasswordValidator

/-- The fixed special-character class of the validator's regex
`[!@#$%^&*(),.?\":\x7b\x7d|<>]` (src/utils/password_validation.py line 39). -/
def specialPattern : List Char :=
  ['!', '@', '#', '$', '%', '^', '&', '*', '(', ')', ',', '.', '?', '"',
   ':', '\x7b', '\x7d', '|', '<', '>']

/-- Message appended when the minimum-length rule fails. -/
def lengthMessage : String := "Password must be at least 8 characters long."

/-- Message appended when the uppercase-and-lowercase rule fails. -/
def caseMessage : String := "Password must contain both uppercase and lowercase letters."

/-- Message appended when the digit rule fails. -/
def digitMessage : String := "Password must contain at least one digit."

/-- Message appended when the special-character rule fails. -/
def specialMessage : String := "Password must contain at least one special character (!@#$%^&*(), etc.)."

/-- Embeds `PasswordValidator.validate_password_strength`
(src/utils/password_validation.py lines 8-43): four independently checked
rules, each appending its own message; the boolean is true only when no
rule failed. -/
def validate_password_strength (password : List Char) : Bool × List String :=
  let lengthOk : Bool := decide (8 ≤ password.length)
  let caseOk : Bool := password.any Char.isLower && password.any Char.isUpper
  let digitOk : Bool := password.any Char.isDigit
  let specialOk : Bool := password.any fun c => specialPattern.contains c
  let messages : List String :=
    (if lengthOk then [] else [lengthMessage]) ++
    (if caseOk then [] else [caseMessage]) ++
    (if digitOk then [] else [digitMessage]) ++
    (if specialOk then [] else [specialMessage])
  (lengthOk && caseOk && digitOk && specialOk, messages)

end PasswordValidator

namespace PasswordGeneration

/-- `string.ascii_lowercase` (src/utils/password_generation.py line 18). -/
def lowercase : List Char := "abcdefghijklmnopqrstuvwxyz".data

/-- `string.ascii_uppercase` (src/utils/password_generation.py line 19). -/
def uppercase : List Char := "ABCDEFGHIJKLMNOPQRSTUVWXYZ".data

/-- `string.digits` (src/utils/password_generation.py line 20). -/
def digits : List Char := "0123456789".data

/-- The generator's special-character set `!@#$%^&*()_+\x7b\x7d|:\"<>?`
(src/utils/password_generation.py line 21). Note it contains underscore and
plus, which the validator's `specialPattern` does not. -/
def special : List Char :=
  ['!', '@', '#', '$', '%', '^', '&', '*', '(', ')', '_', '+',
   '\x7b', '\x7d', '|', ':', '"', '<', '>', '?']

/-- `all_characters` (src/utils/password_generation.py line 24). -/
def all_characters : List Char := lowercase ++ uppercase ++ digits ++ special

/-- One draw of the random source consumed by `generate_strong_password`:
the four `random.choice` picks, the stream of `random.choices` fill picks,
and the `random.shuffle` permutation applied at the end.  A draw is
admissible when its shuffle component permutes its input, which every
outcome of `random.shuffle` does. -/
structure Draw where
  lowChoice : Fin lowercase.length
  upChoice : Fin uppercase.length
  digitChoice : Fin digits.length
  specialChoice : Fin special.length
  fillChoice : Nat → Fin all_characters.length
  shuffle : List Char → List Char

/-- Embeds `generate_strong_password` (src/utils/password_generation.py
lines 4-38) with the randomness made explicit as a `Draw`: rejects lengths
below 8 with `ValueError`, picks one character from each class, fills the
remaining positions from the combined alphabet, and shuffles the whole
sequence. -/
def generate_strong_password (len : Nat) (d : Draw) : Except String (List Char) :=
  if len < 8 then
    .error "Password length must be at least 8 characters."
  else
    let password := [lowercase.get d.lowChoice, uppercase.get d.upChoice,
                     digits.get d.digitChoice, special.get d.specialChoice]
    let filled := password ++ (List.range (len - 4)).map fun i => all_characters.get (d.fillChoice i)
    .ok (d.shuffle filled)

/-- The sequence handed to `random.shuffle` on a draw `d` at an accepted
length: the four class picks followed by the fill picks
(src/utils/password_generation.py lines 25-33). -/
def generateBase (len : Nat) (d : Draw) : List Char :=
  [lowercase.get d.lowChoice, uppercase.get d.upChoice,
   digits.get d.digitChoice, special.get d.specialChoice] ++
  (List.range (len - 4)).map fun i => all_characters.get (d.fillChoice i)

end PasswordGeneration

namespace Bcrypt

/-- Modelled: a salted hash blob produced by the external `bcrypt` library's
`hashpw`. The digest is determined by the password and the embedded salt;
the model records both so that `checkpw` can recompute and compare. -/
structure BcryptHash where
  salt : Nat
  digestOf : List Char
  deriving Repr, DecidableEq

/-- Modelled: `bcrypt.hashpw(password, gensalt())` of the external `bcrypt`
library; the salt argument stands for the fresh salt drawn on this call. -/
def hashpw (password : List Char) (salt : Nat) : BcryptHash :=
  ⟨salt, password⟩

end Bcrypt

/-- Contents of the TEXT `password` column of the `users` table: the source
writes it either as a Fernet token (`DataManager.ensure_admin_user`,
src/data_manager.py line 85) or as a bcrypt hash
(`PasswordManager.save_master_password` and `update_admin_password`,
src/password_manager.py lines 88 and 137). -/
inductive StoredBlob where
  | fernetToken (t : Fernet.FernetToken)
  | bcryptHash (h : Bcrypt.BcryptHash)
  deriving Repr, DecidableEq

namespace Bcrypt

/-- Modelled: `bcrypt.checkpw(password, blob)` of the external `bcrypt`
library: on a well-formed bcrypt hash it recomputes with the embedded salt
and compares; on a blob that is not a well-formed bcrypt hash (such as a
Fernet token, which does not parse as a bcrypt salt-and-digest string) it
raises `ValueError`. -/
def checkpw (password : List Char) (blob : StoredBlob) : Except PyError Bool :=
  match blob with
  | .bcryptHash h => .ok (h.digestOf == password)
  | .fernetToken _ => .error .valueError

end Bcrypt

/-- One row of the `passwords` table (src/data_manager.py lines 53-59):
website and email columns, and the TEXT password column, which always holds
a Fernet ciphertext by the time `PasswordManager.save_password` writes it. -/
structure PasswordRecord where
  website : List Char
  email : List Char
  password : Fernet.FernetToken
  deriving Repr, DecidableEq

/-- One row of the `users` table (src/data_manager.py lines 61-66). -/
structure UserRecord where
  username : List Char
  password : StoredBlob
  deriving Repr, DecidableEq

/-- Case folding of a site name, embedding both SQLite's `LOWER(website)`
and Python's `website.lower()` at the ASCII level where they agree. -/
def lowered (s : List Char) : List Char := s.map Char.toLower

namespace DataManager

/-- Embeds `DataManager.save_password` (src/data_manager.py lines 120-135):
a plain `INSERT INTO passwords` appending a new row, with no key check. -/
def save_password (table : List PasswordRecord) (website email : List Char)
    (password : Fernet.FernetToken) : List PasswordRecord :=
  table ++ [⟨website, email, password⟩]

/-- Embeds `DataManager.get_passwords` (src/data_manager.py lines 137-148):
`SELECT website, email, password FROM passwords`, every row in order. -/
def get_passwords (table : List PasswordRecord) :
    List (List Char × List Char × Fernet.FernetToken) :=
  table.map fun r => (r.website, r.email, r.password)

/-- Embeds `DataManager.search_password` (src/data_manager.py lines 150-166):
`SELECT ... WHERE LOWER(website) = ?` with the lowercased argument, returning
`fetchone()` — the first matching row, or none. -/
def search_password (table : List PasswordRecord) (website : List Char) :
    Option PasswordRecord :=
  table.find? fun r => lowered r.website == lowered website

/-- Embeds `DataManager.update_password` (src/data_manager.py lines 167-182):
`UPDATE passwords SET password = ? WHERE LOWER(website) = ?`, rewriting the
password column of every matching row and touching nothing else. -/
def update_password (table : List PasswordRecord) (website : List Char)
    (new_encrypted_password : Fernet.FernetToken) : List PasswordRecord :=
  table.map fun r =>
    if lowered r.website == lowered website then
      { r with password := new_encrypted_password }
    else r

/-- Embeds `DataManager.get_user_by_username` (src/data_manager.py lines
92-105): `SELECT password FROM users WHERE username = ?`, first row or none. -/
def get_user_by_username (users : List UserRecord) (username : List Char) :
    Option StoredBlob :=
  (users.find? fun u => u.username == username).map fun u => u.password

/-- Embeds `DataManager.ensure_admin_user` (src/data_manager.py lines 70-90):
when no `admin` row exists, inserts one whose password column is the
Fernet-encrypted default credential `password123`. -/
def ensure_admin_user (key nonce : Nat) (users : List UserRecord) :
    List UserRecord :=
  if users.any fun u => u.username == "admin".data then users
  else users ++ [⟨"admin".data,
    .fernetToken (EncryptionManager.encrypt key nonce "password123".data)⟩]

/-- Embeds `DataManager.update_admin_password` (src/data_manager.py lines
107-118): encrypts the new password and rewrites the admin row's password
column. -/
def update_admin_password (key nonce : Nat) (users : List UserRecord)
    (new_password : List Char) : List UserRecord :=
  users.map fun u =>
    if u.username == "admin".data then
      { u with password := .fernetToken (EncryptionManager.encrypt key nonce new_password) }
    else u

end DataManager

/-- Database-backed state a `DataManager` instance operates on: the two
tables, plus a flag recording whether `ensure_tables_exist` has run. -/
structure DMState where
  passwords : List PasswordRecord
  users : List UserRecord
  tables_exist : Bool
  deriving Repr, DecidableEq

/-- Keyword parameter names accepted by `EncryptionManager.__init__` besides
`self`: only `key_file` (src/utils/encryption.py line 9). -/
def encryptionManagerInitKeywords : List String := ["key_file"]

/-- Models Python keyword-argument binding for a call made with keyword
arguments only: the call raises `TypeError` (unexpected keyword argument)
unless every passed keyword is among the accepted parameter names. -/
def checkKeywordCall (accepted passed : List String) : Except PyError Unit :=
  if passed.all fun k => accepted.contains k then .ok () else .error .typeError

namespace DataManager

/-- Embeds `DataManager.ensure_tables_exist` (src/data_manager.py lines
47-68): creates the two tables if absent. -/
def ensure_tables_exist (s : DMState) : DMState :=
  { s with tables_exist := true }

/-- Embeds `DataManager.__init__` (src/data_manager.py lines 12-26) as a
step sequence over the database state: it first evaluates
`EncryptionManager(key_file=self.key_file, key=self.key)` (line 24), a call
passing the keywords `key_file` and `key`, and only then runs
`ensure_tables_exist` and `ensure_admin_user`. An exception from the first
step propagates, leaving the state untouched. -/
def init (key nonce : Nat) (s : DMState) : Except PyError Unit × DMState :=
  match checkKeywordCall encryptionManagerInitKeywords ["key_file", "key"] with
  | .error e => (.error e, s)
  | .ok _ =>
      let s1 := ensure_tables_exist s
      let s2 := { s1 with users := ensure_admin_user key nonce s1.users }
      (.ok (), s2)

end DataManager

namespace PasswordManager

/-- Embeds `PasswordManager.__init__` (src/password_manager.py lines 19-38):
its first statement is `EncryptionManager(key_file=key_file, key=key)`
(line 29), a call passing the keywords `key_file` and `key`; only then does
it construct `DataManager(db_path=db_path)` and ensure the admin user. An
exception from the first step propagates, leaving the state untouched. -/
def init (key nonce : Nat) (s : DMState) : Except PyError Unit × DMState :=
  match checkKeywordCall encryptionManagerInitKeywords ["key_file", "key"] with
  | .error e => (.error e, s)
  | .ok _ => DataManager.init key nonce s

/-- Result of `PasswordManager.save_password`: the three return strings of
src/password_manager.py lines 145-169, with the validation messages the
too-weak message carries. -/
inductive SaveResult where
  | missingFields
  | tooWeak (messages : List String)
  | saved
  deriving Repr, DecidableEq

/-- Embeds `PasswordManager.save_password` (src/password_manager.py lines
145-169): rejects any empty field, then rejects a password failing the
strength validator (returning its messages), and otherwise encrypts and
inserts via `DataManager.save_password`. The nonce stands for the
randomness Fernet draws for this encryption. -/
def save_password (key nonce : Nat) (table : List PasswordRecord)
    (website email password : List Char) : SaveResult × List PasswordRecord :=
  if website = [] ∨ email = [] ∨ password = [] then
    (.missingFields, table)
  else
    let v := PasswordValidator.validate_password_strength password
    if v.1 then
      (.saved, DataManager.save_password table website email
        (EncryptionManager.encrypt key nonce password))
    else
      (.tooWeak v.2, table)

/-- Embeds `PasswordManager.get_passwords` (src/password_manager.py lines
171-188): inside the `try` block every row is decrypted in order; the first
decryption failure aborts the comprehension with an exception, which the
`except` clause turns into the empty list. `decryptRows` is the
comprehension; `get_passwords` wraps it in the try/except. -/
def decryptRows (key : Nat) (rows : List PasswordRecord) :
    Except CryptoError (List (List Char × List Char × List Char)) :=
  match rows with
  | [] => .ok []
  | r :: rest => do
      let p ← EncryptionManager.decrypt key r.password
      let tail ← decryptRows key rest
      .ok ((r.website, r.email, p) :: tail)

/-- Embeds the try/except of `PasswordManager.get_passwords`
(src/password_manager.py lines 171-188): any exception from decryption is
caught and the empty list returned. -/
def get_passwords (key : Nat) (table : List PasswordRecord) :
    List (List Char × List Char × List Char) :=
  match decryptRows key (DataManager.get_passwords table |>.map fun t => ⟨t.1, t.2.1, t.2.2⟩) with
  | .ok l => l
  | .error _ => []

/-- Result of `PasswordManager.search_password` (src/password_manager.py
lines 190-211): the found formatting, the not-found string, or the
exception-catching error string. -/
inductive SearchResult where
  | found (website email password : List Char)
  | notFound
  | errorOccurred
  deriving Repr, DecidableEq

/-- Embeds `PasswordManager.search_password` (src/password_manager.py lines
190-211): looks the site up case-insensitively, decrypts the stored
ciphertext of the first matching row, and reports its fields; a decryption
failure is caught as the error outcome. -/
def search_password (key : Nat) (table : List PasswordRecord)
    (website : List Char) : SearchResult :=
  match DataManager.search_password table website with
  | some r =>
      match EncryptionManager.decrypt key r.password with
      | .ok p => .found r.website r.email p
      | .error _ => .errorOccurred
  | none => .notFound

/-- Result of `PasswordManager.update_password` (src/password_manager.py
lines 225-251). -/
inductive UpdateResult where
  | tooWeak (messages : List String)
  | notFound
  | updated
  deriving Repr, DecidableEq

/-- Embeds `PasswordManager.update_password` (src/password_manager.py lines
225-251): validates the new password's strength FIRST, then checks that the
site exists, and only then re-encrypts and rewrites the password column of
the matching rows. -/
def update_password (key nonce : Nat) (table : List PasswordRecord)
    (website new_password : List Char) : UpdateResult × List PasswordRecord :=
  let v := PasswordValidator.validate_password_strength new_password
  if v.1 then
    match DataManager.search_password table website with
    | none => (.notFound, table)
    | some _ =>
        (.updated, DataManager.update_password table website
          (EncryptionManager.encrypt key nonce new_password))
  else
    (.tooWeak v.2, table)

/-- Embeds `PasswordManager.validate_user_credentials`
(src/password_manager.py lines 100-121): looks the user up and delegates to
`bcrypt.checkpw` on the stored blob; absent user yields false. Exceptions
from `checkpw` propagate — there is no handler. -/
def validate_user_credentials (users : List UserRecord)
    (username password : List Char) : Except PyError Bool :=
  match DataManager.get_user_by_username users username with
  | some blob => Bcrypt.checkpw password blob
  | none => .ok false

/-- Embeds `PasswordManager.validate_current_password`
(src/password_manager.py lines 283-305): same body as
`validate_user_credentials` with the username fixed to `admin`. -/
def validate_current_password (users : List UserRecord)
    (current_password : List Char) : Except PyError Bool :=
  validate_user_credentials users "admin".data current_password

end PasswordManager

/-! Concrete states, draws and tables evaluated by the witnesses and
counterexamples below. -/

/-- Concrete corrupted ciphertext: a valid token whose authentication tag is
bumped by one, as a direct in-storage corruption would produce. -/
def corruptToken : Fernet.FernetToken :=
  let t := EncryptionManager.encrypt 0 0 "Password123!".data
  { t with tag := t.tag + 1 }

/-- Stored state holding a single record whose ciphertext fails to decrypt. -/
def corruptTable : List PasswordRecord :=
  [⟨"example.com".data, "user@example.com".data, corruptToken⟩]

/-- Concrete admissible draw of the generator's random source: first
character of each class except the special pick, which is index 10 — the
underscore — all fill picks the first alphabet character, and the identity
shuffle (a legitimate permutation outcome). -/
def C5draw : PasswordGeneration.Draw :=
  ⟨⟨0, by decide⟩, ⟨0, by decide⟩, ⟨0, by decide⟩, ⟨10, by decide⟩,
   fun _ => ⟨0, by decide⟩, id⟩

/-- Table after `save_secret("Example.com", user1, Password123!)` from the
empty store, under key 0 and Fernet nonce 0. -/
def C1firstSave : List PasswordRecord :=
  (PasswordManager.save_password 0 0 []
    "Example.com".data "user1@example.com".data "Password123!".data).2

/-- Table after the second save, `save_secret("example.com", user2,
Password456!)`, on the same case-folded site, under nonce 1. -/
def C1tableAfter : List PasswordRecord :=
  (PasswordManager.save_password 0 1 C1firstSave
    "example.com".data "user2@example.com".data "Password456!".data).2

/-- Concrete stored ciphertext used by the update-frame witness. -/
def C10token : Fernet.FernetToken :=
  EncryptionManager.encrypt 0 0 "OldPassword1!".data

/-- Two-record store used by the update-frame witness: the target site and
an unrelated one. -/
def C10table : List PasswordRecord :=
  [⟨"example.com".data, "user@example.com".data, C10token⟩,
   ⟨"other.com".data, "user@other.com".data, C10token⟩]

/-! Helper lemmas shared by several proofs. -/

/-- Decryption inverts encryption under the same key: the tag verifies and
the body transform is undone pointwise. -/
theorem Fernet.decrypt_encrypt (key nonce : Nat) (s : List Char) :
    Fernet.decrypt key (Fernet.encrypt key nonce s) = .ok s := by
  have h : ∀ c : Char, Char.ofNat (c.toNat + key + nonce - key - nonce) = c := by
    intro c
    have h2 : c.toNat + key + nonce - key - nonce = c.toNat := by omega
    rw [h2, Char.ofNat_toNat]
  simp [Fernet.decrypt, Fernet.encrypt, List.map_map, Function.comp_def, h]

/-- A password accepted by the strength validator is nonempty, since the
length rule demands at least 8 characters. -/
theorem validate_ne_nil {p : List Char}
    (h : (PasswordValidator.validate_password_strength p).1 = true) : p ≠ [] := by
  intro hnil
  subst hnil
  simp [PasswordValidator.validate_password_strength] at h

/-- A save whose fields are nonempty and whose password passes the strength
validator appends exactly one encrypted record. -/
theorem save_password_success (key nonce : Nat) (table : List PasswordRecord)
    (w e p : List Char) (hw : w ≠ []) (he : e ≠ [])
    (hp : (PasswordValidator.validate_password_strength p).1 = true) :
    PasswordManager.save_password key nonce table w e p =
      (.saved, table ++ [⟨w, e, EncryptionManager.encrypt key nonce p⟩]) := by
  have hpne : p ≠ [] := validate_ne_nil hp
  simp [PasswordManager.save_password, DataManager.save_password, hw, he, hpne, hp]

/-- C9: round-trip — for every string `s`, decrypting the result of
encrypting `s` under the same key material returns `s`:
`decrypt(encrypt(s)) == s`. -/
theorem C9_encrypt_decrypt_roundtrip (key nonce : Nat) (s : List Char) :
    EncryptionManager.decrypt key (EncryptionManager.encrypt key nonce s) = .ok s := by
  simpa [EncryptionManager.decrypt, EncryptionManager.encrypt] using
    Fernet.decrypt_encrypt key nonce s

/-- C3: constructing `DataManager` through its documented signature raises
`TypeError` before any table creation or admin-user bootstrap runs, because
its first effective step passes the unexpected keyword `key` to
`EncryptionManager.__init__`; constructing `PasswordManager` does the same,
since its first statement makes the identical call. In both cases the
database state is returned untouched. -/
theorem C3_constructors_raise_typeError (key nonce : Nat) (s : DMState) :
    DataManager.init key nonce s = (.error .typeError, s) ∧
    PasswordManager.init key nonce s = (.error .typeError, s) := by
  constructor <;> rfl

/-- C4: on the state produced by the first-run admin bootstrap — whose
stored credential is a Fernet token, not a bcrypt hash — password
verification raises `ValueError` from `bcrypt.checkpw` for every candidate
password, instead of returning false; both `validate_user_credentials` and
`validate_current_password` crash this way. -/
theorem C4_admin_bootstrap_verification_raises (key nonce : Nat) (p : List Char) :
    PasswordManager.validate_user_credentials
        (DataManager.ensure_admin_user key nonce []) "admin".data p = .error .valueError ∧
    PasswordManager.validate_current_password
        (DataManager.ensure_admin_user key nonce []) p = .error .valueError := by
  constructor <;> rfl

/-- C2: evaluation at the failing input — a stored state with one record
whose ciphertext fails the integrity check. `get_passwords` catches the
decryption failure and returns the empty list, indistinguishable from "no
secrets", instead of failing with `IntegrityError` as the claim states. -/
theorem C2_decrypt_failure_swallowed_to_empty_list :
    EncryptionManager.decrypt 0 corruptToken = .error .invalidToken ∧
    PasswordManager.get_passwords 0 corruptTable = [] := by
  constructor <;> rfl

/-- C8: characterization of the strength validator — the boolean is true
exactly when the candidate has length at least 8, contains a lowercase and
an uppercase letter, a decimal digit, and a character from the fixed
special set; and the messages list carries one fixed message per failing
rule, concatenated in the fixed rule order, never short-circuiting. -/
theorem C8_validate_characterization (p : List Char) :
    ((PasswordValidator.validate_password_strength p).1 = true ↔
      (8 ≤ p.length ∧ ((∃ c ∈ p, c.isLower = true) ∧ (∃ c ∈ p, c.isUpper = true)) ∧
       (∃ c ∈ p, c.isDigit = true) ∧ (∃ c ∈ p, c ∈ PasswordValidator.specialPattern))) ∧
    (PasswordValidator.validate_password_strength p).2 =
      (if 8 ≤ p.length then [] else [PasswordValidator.lengthMessage]) ++
      (if (∃ c ∈ p, c.isLower = true) ∧ (∃ c ∈ p, c.isUpper = true) then []
       else [PasswordValidator.caseMessage]) ++
      (if ∃ c ∈ p, c.isDigit = true then [] else [PasswordValidator.digitMessage]) ++
      (if ∃ c ∈ p, c ∈ PasswordValidator.specialPattern then []
       else [PasswordValidator.specialMessage]) := by
  refine ⟨?_, ?_⟩ <;>
    simp [PasswordValidator.validate_password_strength, List.any_eq_true,
      List.contains, decide_eq_true_iff, Bool.and_eq_true, and_assoc]

/-- C5 counterexample: an admissible draw at length 8 whose result —
`aA0_aaaa`, whose only special character is the underscore, which the
generator's set contains but the validator's does not — fails
`validate_password_strength`, refuting "the result is guaranteed to pass
the strength gate by construction for every draw". -/
theorem C5_counterexample :
    C5draw.shuffle = id ∧
    PasswordGeneration.generate_strong_password 8 C5draw =
      .ok ['a', 'A', '0', '_', 'a', 'a', 'a', 'a'] ∧
    (PasswordValidator.validate_password_strength
      ['a', 'A', '0', '_', 'a', 'a', 'a', 'a']).1 = false ∧
    (PasswordValidator.validate_password_strength
      ['a', 'A', '0', '_', 'a', 'a', 'a', 'a']).2 =
      [PasswordValidator.specialMessage] := by
  refine ⟨rfl, rfl, by decide, by decide⟩

/-- C5 (amended): `generate_strong_password` fails with `ValueError` for
every length below 8; for every length at least 8 and every admissible draw
(one whose shuffle permutes its input) the result has exactly `length`
characters and contains at least one lowercase letter, one uppercase
letter, one digit, and one character of the generator's special set — but
that set is not contained in the validator's, so passing the strength gate
is not guaranteed. -/
theorem C5_generate_amended (len : Nat) (d : PasswordGeneration.Draw) :
    (len < 8 → PasswordGeneration.generate_strong_password len d =
      .error "Password length must be at least 8 characters.") ∧
    (8 ≤ len → (∀ l, List.Perm (d.shuffle l) l) →
      ∃ pw, PasswordGeneration.generate_strong_password len d = .ok pw ∧
        pw.length = len ∧
        (∃ c ∈ pw, c.isLower = true) ∧ (∃ c ∈ pw, c.isUpper = true) ∧
        (∃ c ∈ pw, c.isDigit = true) ∧
        (∃ c ∈ pw, c ∈ PasswordGeneration.special)) := by
  constructor
  · intro h
    simp [PasswordGeneration.generate_strong_password, h]
  · intro h8 hperm
    have hnot : ¬ len < 8 := by omega
    have hgen : PasswordGeneration.generate_strong_password len d =
        .ok (d.shuffle (PasswordGeneration.generateBase len d)) := by
      simp [PasswordGeneration.generate_strong_password,
        PasswordGeneration.generateBase, hnot]
    have hp : List.Perm (d.shuffle (PasswordGeneration.generateBase len d))
        (PasswordGeneration.generateBase len d) := hperm _
    refine ⟨_, hgen, ?_, ?_, ?_, ?_, ?_⟩
    · rw [hp.length_eq]
      simp [PasswordGeneration.generateBase]
      omega
    · refine ⟨PasswordGeneration.lowercase.get d.lowChoice,
        hp.mem_iff.mpr (by simp [PasswordGeneration.generateBase]), ?_⟩
      have hlow : ∀ i : Fin PasswordGeneration.lowercase.length,
          (PasswordGeneration.lowercase.get i).isLower = true := by decide
      exact hlow d.lowChoice
    · refine ⟨PasswordGeneration.uppercase.get d.upChoice,
        hp.mem_iff.mpr (by simp [PasswordGeneration.generateBase]), ?_⟩
      have hup : ∀ i : Fin PasswordGeneration.uppercase.length,
          (PasswordGeneration.uppercase.get i).isUpper = true := by decide
      exact hup d.upChoice
    · refine ⟨PasswordGeneration.digits.get d.digitChoice,
        hp.mem_iff.mpr (by simp [PasswordGeneration.generateBase]), ?_⟩
      have hdig : ∀ i : Fin PasswordGeneration.digits.length,
          (PasswordGeneration.digits.get i).isDigit = true := by decide
      exact hdig d.digitChoice
    · exact ⟨PasswordGeneration.special.get d.specialChoice,
        hp.mem_iff.mpr (by simp [PasswordGeneration.generateBase]),
        List.get_mem PasswordGeneration.special _ d.specialChoice.isLt⟩

/-- Witness for C5's amended theorem: both branches applied at concrete
inputs — length 6 is rejected, and at length 8 the identity-shuffle draw
yields a password with all four guaranteed character classes. -/
theorem C5_generate_amended_witness :
    ((6 : Nat) < 8 ∧ PasswordGeneration.generate_strong_password 6 C5draw =
      .error "Password length must be at least 8 characters.") ∧
    (8 ≤ (8 : Nat) ∧
      ∃ pw, PasswordGeneration.generate_strong_password 8 C5draw = .ok pw ∧
        pw.length = 8 ∧
        (∃ c ∈ pw, c.isLower = true) ∧ (∃ c ∈ pw, c.isUpper = true) ∧
        (∃ c ∈ pw, c.isDigit = true) ∧
        (∃ c ∈ pw, c ∈ PasswordGeneration.special)) :=
  ⟨⟨by decide, (C5_generate_amended 6 C5draw).1 (by decide)⟩,
   ⟨by decide, (C5_generate_amended 8 C5draw).2 (by decide) fun l => List.Perm.refl l⟩⟩

/-- C1 counterexample: after `save_secret("Example.com", user1, p1)`
followed by `save_secret("example.com", user2, p2)` from the empty store,
TWO records exist for the case-folded site (not exactly one), and
`find_secret("EXAMPLE.COM")` returns the FIRST pair `(user1, p1)`, not
`(user2, p2)` — the insert-only save duplicates instead of overwriting. -/
theorem C1_counterexample :
    (C1tableAfter.filter fun r =>
      lowered r.website == lowered "EXAMPLE.COM".data).length = 2 ∧
    PasswordManager.search_password 0 C1tableAfter "EXAMPLE.COM".data =
      .found "Example.com".data "user1@example.com".data "Password123!".data := by
  constructor
  · decide
  · rfl

/-- C1 (amended): starting from any store with no record for the case-folded
site `example.com`, `save_secret("Example.com", e1, p1)` followed by
`save_secret("example.com", e2, p2)` (both passing the field and strength
checks) leaves exactly TWO records for that site, and
`find_secret("EXAMPLE.COM")` returns the first pair `(e1, p1)`: a save on an
existing site appends a duplicate rather than overwriting, and lookup
returns the oldest matching record. -/
theorem C1_save_appends_and_find_returns_first (key n1 n2 : Nat)
    (table : List PasswordRecord) (e1 p1 e2 p2 : List Char)
    (hnomatch : ∀ r ∈ table, lowered r.website ≠ "example.com".data)
    (he1 : e1 ≠ []) (he2 : e2 ≠ [])
    (hp1 : (PasswordValidator.validate_password_strength p1).1 = true)
    (hp2 : (PasswordValidator.validate_password_strength p2).1 = true) :
    ((PasswordManager.save_password key n2
        (PasswordManager.save_password key n1 table "Example.com".data e1 p1).2
        "example.com".data e2 p2).2.filter fun r =>
      lowered r.website == lowered "EXAMPLE.COM".data).length = 2 ∧
    PasswordManager.search_password key
      (PasswordManager.save_password key n2
        (PasswordManager.save_password key n1 table "Example.com".data e1 p1).2
        "example.com".data e2 p2).2
      "EXAMPLE.COM".data = .found "Example.com".data e1 p1 := by
  have hw1 : ("Example.com".data : List Char) ≠ [] := by decide
  have hw2 : ("example.com".data : List Char) ≠ [] := by decide
  have h1 := save_password_success key n1 table "Example.com".data e1 p1 hw1 he1 hp1
  have h2 := save_password_success key n2
    (table ++ [⟨"Example.com".data, e1, EncryptionManager.encrypt key n1 p1⟩])
    "example.com".data e2 p2 hw2 he2 hp2
  rw [h1]
  dsimp only
  rw [h2]
  dsimp only
  have hpred : ∀ r ∈ table,
      (lowered r.website == lowered "EXAMPLE.COM".data) = false := by
    intro r hr
    refine beq_eq_false_iff_ne.mpr ?_
    have : lowered "EXAMPLE.COM".data = "example.com".data := by decide
    rw [this]
    exact hnomatch r hr
  constructor
  · rw [List.append_assoc, List.filter_append]
    have hnil : table.filter (fun r =>
        lowered r.website == lowered "EXAMPLE.COM".data) = [] := by
      rw [List.filter_eq_nil_iff]
      intro r hr
      simp [hpred r hr]
    rw [hnil]
    rfl
  · simp only [PasswordManager.search_password, DataManager.search_password,
      List.append_assoc, List.find?_append]
    have hnone : table.find? (fun r =>
        lowered r.website == lowered "EXAMPLE.COM".data) = none := by
      rw [List.find?_eq_none]
      intro r hr
      simp [hpred r hr]
    rw [hnone, Option.none_or,
      List.find?_cons_of_pos _ (by rfl), Option.or_some]
    simp [EncryptionManager.decrypt, EncryptionManager.encrypt,
      Fernet.decrypt_encrypt]

/-- Witness for C1's amended theorem at the empty store, key 0, nonces 0
and 1, and the concrete credentials of `C1tableAfter`. -/
theorem C1_save_appends_witness :
    (∀ r ∈ ([] : List PasswordRecord), lowered r.website ≠ "example.com".data) ∧
    ("user1@example.com".data : List Char) ≠ [] ∧
    ("user2@example.com".data : List Char) ≠ [] ∧
    (PasswordValidator.validate_password_strength "Password123!".data).1 = true ∧
    (PasswordValidator.validate_password_strength "Password456!".data).1 = true ∧
    (((PasswordManager.save_password 0 1
        (PasswordManager.save_password 0 0 [] "Example.com".data
          "user1@example.com".data "Password123!".data).2
        "example.com".data "user2@example.com".data "Password456!".data).2.filter
      fun r => lowered r.website == lowered "EXAMPLE.COM".data).length = 2 ∧
    PasswordManager.search_password 0
      (PasswordManager.save_password 0 1
        (PasswordManager.save_password 0 0 [] "Example.com".data
          "user1@example.com".data "Password123!".data).2
        "example.com".data "user2@example.com".data "Password456!".data).2
      "EXAMPLE.COM".data =
        .found "Example.com".data "user1@example.com".data "Password123!".data) :=
  ⟨by simp, by decide, by decide, by decide, by decide,
   C1_save_appends_and_find_returns_first 0 0 1 []
     "user1@example.com".data "Password123!".data
     "user2@example.com".data "Password456!".data
     (by simp) (by decide) (by decide) (by decide) (by decide)⟩

/-- C6 counterexample: updating a site that has no record with a new secret
failing the strength rules returns the strength-validation failure, not
NotFoundError — the strength check runs before the existence check. -/
theorem C6_counterexample :
    PasswordManager.update_password 0 0 [] "nosite.com".data "weak".data =
      (.tooWeak [PasswordValidator.lengthMessage, PasswordValidator.caseMessage,
        PasswordValidator.digitMessage, PasswordValidator.specialMessage], []) ∧
    DataManager.search_password [] "nosite.com".data = none ∧
    PasswordManager.update_password 0 0 [] "nosite.com".data "weak".data ≠
      (.notFound, []) := by
  refine ⟨rfl, rfl, by decide⟩

/-- C6 (amended): for every site with no stored record, `update_secret`
fails with NotFoundError when the new secret passes the strength rules; when
the new secret fails them, it fails with the strength-validation error
instead (carrying the messages), regardless of the site's existence, because
strength is checked first. The store is unchanged either way. -/
theorem C6_update_on_missing_site (key nonce : Nat) (table : List PasswordRecord)
    (site p : List Char) :
    ((PasswordValidator.validate_password_strength p).1 = true →
      DataManager.search_password table site = none →
      PasswordManager.update_password key nonce table site p = (.notFound, table)) ∧
    ((PasswordValidator.validate_password_strength p).1 = false →
      PasswordManager.update_password key nonce table site p =
        (.tooWeak (PasswordValidator.validate_password_strength p).2, table)) := by
  constructor
  · intro hp hnone
    simp [PasswordManager.update_password, hp, hnone]
  · intro hp
    simp [PasswordManager.update_password, hp]

/-- Witness for C6's amended theorem: a strong secret on a missing site
yields NotFound; a weak one yields the validation failure. -/
theorem C6_update_on_missing_site_witness :
    ((PasswordValidator.validate_password_strength "Password123!".data).1 = true ∧
     DataManager.search_password [] "nosite.com".data = none ∧
     PasswordManager.update_password 0 0 [] "nosite.com".data "Password123!".data =
       (.notFound, [])) ∧
    ((PasswordValidator.validate_password_strength "weak".data).1 = false ∧
     PasswordManager.update_password 0 0 [] "nosite.com".data "weak".data =
       (.tooWeak (PasswordValidator.validate_password_strength "weak".data).2, [])) :=
  ⟨⟨by decide, rfl,
    (C6_update_on_missing_site 0 0 [] "nosite.com".data "Password123!".data).1
      (by decide) rfl⟩,
   ⟨by decide,
    (C6_update_on_missing_site 0 0 [] "nosite.com".data "weak".data).2 (by decide)⟩⟩

/-- C7: `save_secret` fails with the missing-field error when any of
site/identifier/secret is empty, and with the strength-validation error
carrying the itemized reasons when the fields are present but the secret
fails the strength gate; in both failure cases the returned store is the
input store — nothing is persisted. -/
theorem C7_save_failure_modes (key nonce : Nat) (table : List PasswordRecord)
    (w e p : List Char) :
    (w = [] ∨ e = [] ∨ p = [] →
      PasswordManager.save_password key nonce table w e p = (.missingFields, table)) ∧
    (w ≠ [] → e ≠ [] → p ≠ [] →
      (PasswordValidator.validate_password_strength p).1 = false →
      PasswordManager.save_password key nonce table w e p =
        (.tooWeak (PasswordValidator.validate_password_strength p).2, table)) := by
  constructor
  · intro h
    simp [PasswordManager.save_password, h]
  · intro hw he hp hval
    simp [PasswordManager.save_password, hw, he, hp, hval]

/-- Witness for C7 at concrete inputs: an empty site is rejected as a
missing field, and scenario B's `save_secret("x","y","weakpw")` is rejected
with the itemized strength reasons, both leaving the empty store empty. -/
theorem C7_save_failure_modes_witness :
    (([] : List Char) = [] ∨ ("y".data : List Char) = [] ∨
      ("Password123!".data : List Char) = []) ∧
    PasswordManager.save_password 0 0 [] [] "y".data "Password123!".data =
      (.missingFields, []) ∧
    ("x".data : List Char) ≠ [] ∧ ("y".data : List Char) ≠ [] ∧
    ("weakpw".data : List Char) ≠ [] ∧
    (PasswordValidator.validate_password_strength "weakpw".data).1 = false ∧
    PasswordManager.save_password 0 0 [] "x".data "y".data "weakpw".data =
      (.tooWeak (PasswordValidator.validate_password_strength "weakpw".data).2, []) :=
  ⟨Or.inl rfl,
   (C7_save_failure_modes 0 0 [] [] "y".data "Password123!".data).1 (Or.inl rfl),
   by decide, by decide, by decide, by decide,
   (C7_save_failure_modes 0 0 [] "x".data "y".data "weakpw".data).2
     (by decide) (by decide) (by decide) (by decide)⟩

/-- C10: frame property of a successful update — when a record for the
case-folded site exists and the new secret passes the strength rules, the
update succeeds and the resulting store has the same length; every record
keeps its site and identifier, records for a different case-folded site are
completely unchanged, and matching records get exactly the new ciphertext. -/
theorem C10_update_frame (key nonce : Nat) (table : List PasswordRecord)
    (site p : List Char) (r : PasswordRecord)
    (hp : (PasswordValidator.validate_password_strength p).1 = true)
    (hfound : DataManager.search_password table site = some r) :
    ∃ t2, PasswordManager.update_password key nonce table site p = (.updated, t2) ∧
      t2.length = table.length ∧
      ∀ i (hi : i < table.length) (hi2 : i < t2.length),
        (t2.get ⟨i, hi2⟩).website = (table.get ⟨i, hi⟩).website ∧
        (t2.get ⟨i, hi2⟩).email = (table.get ⟨i, hi⟩).email ∧
        (lowered (table.get ⟨i, hi⟩).website ≠ lowered site →
          t2.get ⟨i, hi2⟩ = table.get ⟨i, hi⟩) ∧
        (lowered (table.get ⟨i, hi⟩).website = lowered site →
          (t2.get ⟨i, hi2⟩).password = EncryptionManager.encrypt key nonce p) := by
  refine ⟨DataManager.update_password table site
    (EncryptionManager.encrypt key nonce p), ?_, ?_, ?_⟩
  · simp [PasswordManager.update_password, hp, hfound]
  · simp [DataManager.update_password]
  · intro i hi hi2
    have hmap : (DataManager.update_password table site
        (EncryptionManager.encrypt key nonce p)).get ⟨i, hi2⟩ =
        if lowered (table.get ⟨i, hi⟩).website == lowered site then
          { table.get ⟨i, hi⟩ with
            password := EncryptionManager.encrypt key nonce p }
        else table.get ⟨i, hi⟩ := by
      simp [DataManager.update_password, List.get_eq_getElem, List.getElem_map]
    by_cases hc : lowered (table.get ⟨i, hi⟩).website = lowered site
    · have hb : (lowered (table.get ⟨i, hi⟩).website == lowered site) = true :=
        beq_iff_eq.mpr hc
      rw [hmap, if_pos hb]
      exact ⟨rfl, rfl, fun hne => absurd hc hne, fun _ => rfl⟩
    · have hb : (lowered (table.get ⟨i, hi⟩).website == lowered site) = false :=
        beq_eq_false_iff_ne.mpr hc
      rw [hmap, if_neg (by rw [hb]; exact Bool.false_ne_true)]
      exact ⟨rfl, rfl, fun _ => rfl, fun heq => absurd heq hc⟩

/-- Witness for C10 at a concrete two-record store: updating
`Example.com` succeeds and the frame conditions hold. -/
theorem C10_update_frame_witness :
    (PasswordValidator.validate_password_strength "NewPassword1!".data).1 = true ∧
    DataManager.search_password C10table "Example.com".data =
      some ⟨"example.com".data, "user@example.com".data, C10token⟩ ∧
    ∃ t2, PasswordManager.update_password 0 1 C10table "Example.com".data
        "NewPassword1!".data = (.updated, t2) ∧
      t2.length = C10table.length ∧
      ∀ i (hi : i < C10table.length) (hi2 : i < t2.length),
        (t2.get ⟨i, hi2⟩).website = (C10table.get ⟨i, hi⟩).website ∧
        (t2.get ⟨i, hi2⟩).email = (C10table.get ⟨i, hi⟩).email ∧
        (lowered (C10table.get ⟨i, hi⟩).website ≠ lowered "Example.com".data →
          t2.get ⟨i, hi2⟩ = C10table.get ⟨i, hi⟩) ∧
        (lowered (C10table.get ⟨i, hi⟩).website = lowered "Example.com".data →
          (t2.get ⟨i, hi2⟩).password =
            EncryptionManager.encrypt 0 1 "NewPassword1!".data) :=
  ⟨by decide, rfl,
   C10_update_frame 0 1 C10table "Example.com".data "NewPassword1!".data
     ⟨"example.com".data, "user@example.com".data, C10token⟩ (by decide) rfl⟩

end PwVault
